import Mathlib

/-
  Shallow embedding of the AI Farmer Assistant backend
  (src/agri/backend/app.py): the Gemini API call wrapper with retry and
  backoff (`call_gemini_api`), the two payload builders
  (`handle_image_query`, `handle_text_query`) and the routing endpoint
  (`chat`).
-/

namespace AgriBot

/-- Parsed JSON values, the shape of a decoded response body
(`response.json()` in the source). Numbers are modelled as integers;
no claim depends on fractional numerics. -/
inductive Json where
  | null
  | bool (b : Bool)
  | num (n : Int)
  | str (s : String)
  | arr (elems : List Json)
  | obj (fields : List (String × Json))

mutual

/-- Structural equality of JSON values (Python `==` on decoded JSON). -/
def Json.beq : Json → Json → Bool
  | .null, .null => true
  | .bool a, .bool b => a == b
  | .num a, .num b => a == b
  | .str a, .str b => a == b
  | .arr xs, .arr ys => Json.beqList xs ys
  | .obj fs, .obj gs => Json.beqFields fs gs
  | _, _ => false

/-- Elementwise equality of JSON arrays. -/
def Json.beqList : List Json → List Json → Bool
  | [], [] => true
  | x :: xs, y :: ys => Json.beq x y && Json.beqList xs ys
  | _, _ => false

/-- Elementwise equality of JSON object field lists. -/
def Json.beqFields : List (String × Json) → List (String × Json) → Bool
  | [], [] => true
  | (k, v) :: fs, (l, w) :: gs => k == l && Json.beq v w && Json.beqFields fs gs
  | _, _ => false

end

instance : BEq Json := ⟨Json.beq⟩

/-- The Python exceptions that the response-processing code can raise:
`KeyError`, `IndexError` (both caught in `call_gemini_api`, line 48) and
`TypeError` (raised by subscripting/len on a value of the wrong type;
caught nowhere in `call_gemini_api`). -/
inductive PyExc where
  | keyError
  | indexError
  | typeError
deriving DecidableEq

/-- Transport-level failure of one attempt: `requests.exceptions.RequestException`,
covering connection errors, timeouts and (via `raise_for_status`, line 35)
non-2xx statuses. -/
inductive TransportError where
  | connectionError
  | timedOut
  | badStatus (code : Nat)
deriving DecidableEq

/-- Outcome of one POST to the service: either a `RequestException`
or a 2xx response whose body decoded to a JSON value. -/
inductive TransportResult where
  | failure (e : TransportError)
  | success (body : Json)

/-- Whether a transport result is a failure. -/
def TransportResult.isFailure : TransportResult → Bool
  | .failure _ => true
  | .success _ => false

/-! ### Python subscript / membership / len semantics on decoded JSON -/

/-- Substring test: Python `needle in hay` for strings. -/
def strHasSub (hay needle : String) : Bool :=
  hay.data.tails.any (fun t => needle.data.isPrefixOf t)

/-- Python `k in v` for a string key `k`: key membership for dicts, element
membership for lists, substring test for strings, `TypeError` otherwise. -/
def pyContains (v : Json) (k : String) : Except PyExc Bool :=
  match v with
  | .obj fields => .ok (List.lookup k fields).isSome
  | .arr elems => .ok (elems.contains (Json.str k))
  | .str s => .ok (strHasSub s k)
  | _ => .error .typeError

/-- Python `v[k]` for a string key `k`: dict lookup (raising `KeyError` when
absent), `TypeError` on lists, strings and scalars. -/
def pyGetKey (v : Json) (k : String) : Except PyExc Json :=
  match v with
  | .obj fields =>
    match List.lookup k fields with
    | some w => .ok w
    | none => .error .keyError
  | _ => .error .typeError

/-- Python `v[i]` for a non-negative integer index `i`: list indexing
(raising `IndexError` out of range), string indexing (yielding a one-character
string), `KeyError` on dicts (decoded JSON objects have only string keys, so
an integer key is never present), `TypeError` on scalars. -/
def pyGetIdx (v : Json) (i : Nat) : Except PyExc Json :=
  match v with
  | .arr elems =>
    match elems.get? i with
    | some w => .ok w
    | none => .error .indexError
  | .str s =>
    match s.data.get? i with
    | some c => .ok (.str (String.mk [c]))
    | none => .error .indexError
  | .obj _ => .error .keyError
  | _ => .error .typeError

/-- Python `len(v)`: defined on dicts, lists and strings, `TypeError`
otherwise. -/
def pyLen (v : Json) : Except PyExc Nat :=
  match v with
  | .obj fields => .ok fields.length
  | .arr elems => .ok elems.length
  | .str s => .ok s.length
  | _ => .error .typeError

/-! ### The fixed user-facing strings of app.py -/

/-- app.py line 40: fallback when the candidates check fails. -/
def noResponseMsg : String :=
  "Sorry, I couldn't generate a response. Please try again."

/-- app.py line 47: fallback after the final transport failure. -/
def connectivityMsg : String :=
  "I'm sorry, I am unable to connect to the AI service right now. Please check your network and try again."

/-- app.py line 50: fallback on a `KeyError`/`IndexError` while extracting. -/
def processingMsg : String :=
  "An unexpected error occurred while processing the AI response."

/-- app.py line 51: the return after the retry loop. -/
def unavailableMsg : String :=
  "I'm sorry, the service is currently unavailable. Please try again later."

/-- app.py line 74: body of the generic 500 response of `chat`. -/
def genericErrorMsg : String :=
  "An unexpected error occurred. Please try again."

/-! ### call_gemini_api (app.py lines 25-51) -/

/-- app.py lines 38-40, the body of the `try` block after a 2xx response:
`if 'candidates' in api_response and len(api_response['candidates']) > 0:`
`    return api_response['candidates'][0]['content']['parts'][0]['text']`
`return "Sorry, I couldn't generate a response. Please try again."`
The short-circuit `and` and the repeated subscripts are kept as in the
source; any raised exception is the `.error` of the result. -/
def processBody (api_response : Json) : Except PyExc Json :=
  match pyContains api_response "candidates" with
  | .error e => .error e
  | .ok hasKey =>
    if hasKey then
      match pyGetKey api_response "candidates" with
      | .error e => .error e
      | .ok cands =>
        match pyLen cands with
        | .error e => .error e
        | .ok n =>
          if n > 0 then
            match pyGetKey api_response "candidates" with
            | .error e => .error e
            | .ok cands2 =>
              match pyGetIdx cands2 0 with
              | .error e => .error e
              | .ok cand0 =>
                match pyGetKey cand0 "content" with
                | .error e => .error e
                | .ok content =>
                  match pyGetKey content "parts" with
                  | .error e => .error e
                  | .ok parts =>
                    match pyGetIdx parts 0 with
                    | .error e => .error e
                    | .ok part0 => pyGetKey part0 "text"
          else
            .ok (.str noResponseMsg)
    else
      .ok (.str noResponseMsg)

/-- Observable outcome of `call_gemini_api`: the returned value (`.ok`,
a JSON value since the extracted `['text']` is returned whatever its type)
or the uncaught exception (`.error`), the number of POSTs made, the
`time.sleep` durations in order, and whether the value came from the
return statement after the loop (line 51). -/
@[ext]
structure CallOutcome where
  result : Except PyExc Json
  attempts : Nat
  sleeps : List Nat
  fromPostLoop : Bool

/-- app.py maximum attempt count (line 31). -/
def max_retries : Nat := 5

/-- Outcome of a transport-successful attempt (app.py lines 36-40 and the
`except (KeyError, IndexError)` arm, lines 48-50): the extracted value or the
no-candidates fallback; `KeyError`/`IndexError` turn into the processing
fallback; any other exception (a `TypeError`) escapes uncaught. -/
def handleSuccess (body : Json) : CallOutcome :=
  match processBody body with
  | .ok v => ⟨.ok v, 1, [], false⟩
  | .error .keyError => ⟨.ok (.str processingMsg), 1, [], false⟩
  | .error .indexError => ⟨.ok (.str processingMsg), 1, [], false⟩
  | .error e => ⟨.error e, 1, [], false⟩

/-- The retry loop of `call_gemini_api` (app.py lines 32-51), as a recursion
on the remaining iterations of `for i in range(max_retries)`: `i` is the
current attempt index and `fuel` the number of iterations left. A transport
failure with `i < max_retries - 1` sleeps `2 ** i` and continues (lines
43-45); a transport failure on the last attempt returns the connectivity
fallback (line 47); exhausting the loop reaches line 51. -/
def runAttempts (service : Nat → TransportResult) : Nat → Nat → CallOutcome
  | _, 0 => ⟨.ok (.str unavailableMsg), 0, [], true⟩
  | i, fuel + 1 =>
    match service i with
    | .success body => handleSuccess body
    | .failure _ =>
      if i < max_retries - 1 then
        let rest := runAttempts service (i + 1) fuel
        ⟨rest.result, rest.attempts + 1, 2 ^ i :: rest.sleeps, rest.fromPostLoop⟩
      else
        ⟨.ok (.str connectivityMsg), 1, [], false⟩

/-- `call_gemini_api(payload)` (app.py lines 25-51). The external service is
abstracted as a function from the posted payload and the attempt index to
that attempt's transport result; the loop starts at attempt 0 with
`max_retries` iterations. -/
def call_gemini_api {Payload : Type} (service : Payload → Nat → TransportResult)
    (payload : Payload) : CallOutcome :=
  runAttempts (service payload) 0 max_retries

/-! ### Outbound payloads (app.py lines 84-102 and 115-130) -/

/-- One element of a `"parts"` list: a text part or an inline-data part
(`"inlineData": {"mimeType": ..., "data": ...}`). -/
inductive ContentPart where
  | text (s : String)
  | inlineData (mimeType : String) (data : String)
deriving DecidableEq

/-- One element of a `"contents"` (or `"systemInstruction"`) value: an
object holding a `"parts"` list. -/
structure Content where
  parts : List ContentPart
deriving DecidableEq

/-- A capability flag in the `"tools"` list; the source only ever uses
`{"google_search": {}}` (app.py line 117). -/
inductive Tool where
  | googleSearch
deriving DecidableEq

/-- `"generationConfig"`: only the temperature is ever set. The source
literals 0.2 and 0.7 are modelled as exact rationals; no arithmetic is
performed on them. -/
structure GenerationConfig where
  temperature : Rat
deriving DecidableEq

/-- The outbound request body. The image payload carries no `"tools"` and
no `"systemInstruction"` key, modelled as `[]` and `none`. -/
structure Payload where
  contents : List Content
  tools : List Tool
  systemInstruction : Option Content
  generationConfig : GenerationConfig
deriving DecidableEq

/-- Python `s.split(',')`: split on every comma (app.py line 93 applies
`[1]` to this list). -/
def pySplitComma (s : String) : List String :=
  (s.data.splitOn ',').map (fun cs => String.mk cs)

/-- Python list indexing `xs[i]` for a non-negative `i`: `IndexError` when
out of range. -/
def pyListGet (xs : List String) (i : Nat) : Except PyExc String :=
  match xs.get? i with
  | some v => .ok v
  | none => .error .indexError

/-- The fixed diagnostic instruction of the image payload (app.py line 88). -/
def imageInstructionText : String :=
  "Analyze this image for signs of crop disease or pests. Identify the issue and provide a concise, actionable remedy. Be specific about the diagnosis and potential treatments."

/-- The fixed system persona of the text payload (app.py lines 120-124,
adjacent string literals concatenated). -/
def personaText : String :=
  "You are a helpful and knowledgeable AI Farmer Assistant. Answer questions about crops, soil, weather, fertilizers, pests, and market rates. Use Google Search to get the most up-to-date information, especially for weather and market prices. Provide concise, easy-to-understand advice for a farmer."

/-- The payload construction of `handle_image_query` (app.py lines 84-102):
parts in order are the fixed instruction, the inline image whose data is
`image_data.split(',')[1]` (line 93, may raise `IndexError`), and the user
message; temperature 0.2; no tools, no system instruction. -/
def imagePayloadOf (user_message image_data : String) : Except PyExc Payload :=
  match pyListGet (pySplitComma image_data) 1 with
  | .error e => .error e
  | .ok stripped =>
    .ok ⟨[⟨[.text imageInstructionText, .inlineData "image/jpeg" stripped,
            .text user_message]⟩],
         [], none, ⟨0.2⟩⟩

/-- The payload construction of `handle_text_query` (app.py lines 115-130):
the user message as the sole part, Google Search grounding enabled, the
fixed persona as system instruction, temperature 0.7. -/
def textPayloadOf (user_message : String) : Payload :=
  ⟨[⟨[.text user_message]⟩], [.googleSearch], some ⟨[.text personaText]⟩, ⟨0.7⟩⟩

/-- `handle_image_query` (app.py lines 78-106): builds the image payload,
posts it through `call_gemini_api` and wraps the result under `"response"`.
The `IndexError` of the split (line 93) and any exception escaping
`call_gemini_api` propagate (`.error`) to the caller. The `.ok` value is
the JSON value that `jsonify({"response": ...})` serializes. -/
def handle_image_query (service : Payload → Nat → TransportResult)
    (user_message image_data : String) : Except PyExc Json :=
  match imagePayloadOf user_message image_data with
  | .error e => .error e
  | .ok payload =>
    match (call_gemini_api service payload).result with
    | .error e => .error e
    | .ok text => .ok (.obj [("response", text)])

/-- `handle_text_query` (app.py lines 110-134): builds the text payload,
posts it and wraps the result under `"response"`. -/
def handle_text_query (service : Payload → Nat → TransportResult)
    (user_message : String) : Except PyExc Json :=
  match (call_gemini_api service (textPayloadOf user_message)).result with
  | .error e => .error e
  | .ok text => .ok (.obj [("response", text)])

/-! ### The /api/chat endpoint (app.py lines 55-74) -/

/-- Python truthiness of `image_data` (`data.get('imageData', None)`):
`None` and the empty string are falsy, any other string is truthy
(app.py line 66, `if image_data:`). -/
def pyTruthy : Option String → Bool
  | none => false
  | some s => !s.isEmpty

/-- An HTTP response of the endpoint: status code and JSON body. -/
structure HttpResponse where
  status : Nat
  body : Json

/-- The exception boundary of `chat` (app.py lines 65-74): a handler value
is returned with status 200, an escaping exception is caught by the
`except Exception` arm and reported as the generic 500 response. -/
def wrapOutcome : Except PyExc Json → HttpResponse
  | .ok v => ⟨200, v⟩
  | .error _ => ⟨500, .obj [("response", .str genericErrorMsg)]⟩

/-- `chat` (app.py lines 55-74): routes on the truthiness of `imageData`
(line 66, `if image_data:`) and applies the exception boundary. -/
def chat (service : Payload → Nat → TransportResult)
    (user_message : String) (image_data : Option String) : HttpResponse :=
  if pyTruthy image_data then
    wrapOutcome (handle_image_query service user_message (image_data.getD ""))
  else
    wrapOutcome (handle_text_query service user_message)

/-! ### Concrete service behaviours used as test doubles -/

/-- A response body of the shape the code expects: one candidate whose first
part carries the text `t`. -/
def goodBody (t : String) : Json :=
  .obj [("candidates",
    .arr [.obj [("content", .obj [("parts", .arr [.obj [("text", .str t)]])])]])]

/-- A service whose every attempt fails at the transport level. -/
def alwaysFailService : Payload → Nat → TransportResult :=
  fun _ _ => .failure .connectionError

/-- A service failing on attempts 0-3 and answering `"final answer"` on
attempt 4. -/
def lateSuccessService : Payload → Nat → TransportResult :=
  fun _ i => if i < 4 then .failure .timedOut else .success (goodBody "final answer")

/-- A service answering 200 with `{"candidates": [5]}`: the nested value has
an unexpected type, so extracting `[0]['content']` raises `TypeError`. -/
def typeConfusedService : Payload → Nat → TransportResult :=
  fun _ _ => .success (.obj [("candidates", .arr [.num 5])])

/-- A service answering 200 with `{"candidates": [{}]}`: extracting
`['content']` raises `KeyError`. -/
def keyErrorService : Payload → Nat → TransportResult :=
  fun _ _ => .success (.obj [("candidates", .arr [.obj []])])

/-- A service answering 200 with `{"candidates": []}`. -/
def emptyCandidatesService : Payload → Nat → TransportResult :=
  fun _ _ => .success (.obj [("candidates", .arr [])])

/-- A service that reveals which payload it was sent: it answers
`"image-route"` when the payload carries no tools (the image payload) and
`"text-route"` when it carries some (the text payload). -/
def routeProbeService : Payload → Nat → TransportResult :=
  fun p _ => .success (goodBody (if p.tools.isEmpty then "image-route" else "text-route"))

/-- A service whose generated text happens to equal the post-loop fallback
string of `call_gemini_api`. -/
def echoService : Payload → Nat → TransportResult :=
  fun _ _ => .success (goodBody unavailableMsg)

/-! ### Spec-side comparison definition -/

/-- The spec's words for the prefix strip (spec.md section 4.2 and section 8):
"splits on the first comma, keeps the part after it" — the portion of the
string after the FIRST comma, commas and all. Stated from the spec, to be
compared with the source's `split(',')[1]` (`pySplitComma ·` at index 1). -/
def spec_afterFirstComma (s : String) : String :=
  String.mk ((s.data.dropWhile (fun c => c ≠ ',')).drop 1)

/-! ## Helper lemmas about the retry loop -/

theorem handleSuccess_attempts (body : Json) : (handleSuccess body).attempts = 1 := by
  unfold handleSuccess
  cases h : processBody body with
  | ok v => rfl
  | error e => cases e <;> rfl

theorem handleSuccess_sleeps (body : Json) : (handleSuccess body).sleeps = [] := by
  unfold handleSuccess
  cases h : processBody body with
  | ok v => rfl
  | error e => cases e <;> rfl

theorem handleSuccess_fromPostLoop (body : Json) :
    (handleSuccess body).fromPostLoop = false := by
  unfold handleSuccess
  cases h : processBody body with
  | ok v => rfl
  | error e => cases e <;> rfl

theorem range_pow_cons (i n : Nat) :
    2 ^ i :: (List.range n).map (fun j => 2 ^ (i + 1 + j)) =
    (List.range (n + 1)).map (fun j => 2 ^ (i + j)) := by
  rw [List.range_succ_eq_map, List.map_cons, List.map_map]
  refine List.cons_eq_cons.mpr ⟨by rw [Nat.add_zero], ?_⟩
  refine List.map_congr_left ?_
  intro j _
  simp only [Function.comp_apply]
  congr 1
  omega

theorem runAttempts_succ_success (service : Nat → TransportResult) (i fuel : Nat)
    (body : Json) (hs : service i = .success body) :
    runAttempts service i (fuel + 1) = handleSuccess body := by
  simp only [runAttempts, hs]

theorem runAttempts_succ_retry (service : Nat → TransportResult) (i fuel : Nat)
    (e : TransportError) (hs : service i = .failure e) (hi : i < max_retries - 1) :
    runAttempts service i (fuel + 1) =
      ⟨(runAttempts service (i + 1) fuel).result,
       (runAttempts service (i + 1) fuel).attempts + 1,
       2 ^ i :: (runAttempts service (i + 1) fuel).sleeps,
       (runAttempts service (i + 1) fuel).fromPostLoop⟩ := by
  simp only [runAttempts, hs, if_pos hi]

theorem runAttempts_succ_last_failure (service : Nat → TransportResult) (i fuel : Nat)
    (e : TransportError) (hs : service i = .failure e) (hi : ¬ i < max_retries - 1) :
    runAttempts service i (fuel + 1) =
      ⟨.ok (.str connectivityMsg), 1, [], false⟩ := by
  simp only [runAttempts, hs, if_neg hi]

theorem runAttempts_all_fail (service : Nat → TransportResult) :
    ∀ fuel i, i + fuel = max_retries → 0 < fuel →
    (∀ j, j < fuel → (service (i + j)).isFailure = true) →
    runAttempts service i fuel =
      ⟨.ok (.str connectivityMsg), fuel,
       (List.range (fuel - 1)).map (fun j => 2 ^ (i + j)), false⟩ := by
  intro fuel
  induction fuel with
  | zero => intro i _ h0 _; exact absurd h0 (by omega)
  | succ f ih =>
    intro i hsum _ hfail
    have hm : max_retries = 5 := rfl
    have h0 := hfail 0 (Nat.succ_pos f)
    rw [Nat.add_zero] at h0
    cases hs : service i with
    | success body => rw [hs] at h0; simp [TransportResult.isFailure] at h0
    | failure e =>
      cases f with
      | zero =>
        have hi : ¬ i < max_retries - 1 := by rw [hm] at hsum ⊢; omega
        rw [runAttempts_succ_last_failure service i 0 e hs hi]
        rfl
      | succ f2 =>
        have hi : i < max_retries - 1 := by rw [hm] at hsum ⊢; omega
        have hrec := ih (i + 1) (by omega) (Nat.succ_pos f2)
          (fun j hj => by
            have h := hfail (j + 1) (by omega)
            rwa [show i + (j + 1) = i + 1 + j by omega] at h)
        rw [runAttempts_succ_retry service i (f2 + 1) e hs hi, hrec]
        simp only [CallOutcome.mk.injEq, Nat.add_sub_cancel, true_and, and_true]
        exact range_pow_cons i f2

theorem runAttempts_first_success (service : Nat → TransportResult) :
    ∀ k fuel i (body : Json), i + fuel = max_retries → k < fuel →
    (∀ j, j < k → (service (i + j)).isFailure = true) →
    service (i + k) = .success body →
    runAttempts service i fuel =
      ⟨(handleSuccess body).result, k + 1,
       (List.range k).map (fun j => 2 ^ (i + j)), false⟩ := by
  intro k
  induction k with
  | zero =>
    intro fuel i body hsum hk _ hsucc
    cases fuel with
    | zero => omega
    | succ f =>
      rw [Nat.add_zero] at hsucc
      rw [runAttempts_succ_success service i f body hsucc]
      simp only [List.range_zero, List.map_nil, Nat.zero_add]
      refine CallOutcome.ext rfl ?_ ?_ ?_
      · rw [handleSuccess_attempts]
      · rw [handleSuccess_sleeps]
      · rw [handleSuccess_fromPostLoop]
  | succ k ih =>
    intro fuel i body hsum hk hfail hsucc
    cases fuel with
    | zero => omega
    | succ f =>
      have hm : max_retries = 5 := rfl
      have h0 := hfail 0 (Nat.succ_pos k)
      rw [Nat.add_zero] at h0
      cases hs : service i with
      | success b => rw [hs] at h0; simp [TransportResult.isFailure] at h0
      | failure e =>
        have hi : i < max_retries - 1 := by rw [hm] at hsum ⊢; omega
        have hrec := ih f (i + 1) body (by rw [hm] at hsum ⊢; omega) (by omega)
          (fun j hj => by
            have h := hfail (j + 1) (by omega)
            rwa [show i + (j + 1) = i + 1 + j by omega] at h)
          (by rwa [show i + 1 + k = i + (k + 1) by omega])
        rw [runAttempts_succ_retry service i f e hs hi, hrec]
        simp only [CallOutcome.mk.injEq, true_and, and_true]
        exact range_pow_cons i k

theorem handleSuccess_result_error (body : Json) (e : PyExc)
    (h : (handleSuccess body).result = .error e) : e = .typeError := by
  unfold handleSuccess at h
  cases hb : processBody body with
  | ok v => rw [hb] at h; simp at h
  | error e2 =>
    rw [hb] at h
    cases e2 with
    | keyError => simp at h
    | indexError => simp at h
    | typeError =>
      simp only [Except.error.injEq] at h
      exact h.symm

theorem runAttempts_error_typeError (service : Nat → TransportResult) :
    ∀ fuel i e, (runAttempts service i fuel).result = .error e → e = .typeError := by
  intro fuel
  induction fuel with
  | zero => intro i e h; simp [runAttempts] at h
  | succ f ih =>
    intro i e h
    cases hs : service i with
    | success body =>
      rw [runAttempts_succ_success service i f body hs] at h
      exact handleSuccess_result_error body e h
    | failure e2 =>
      by_cases hi : i < max_retries - 1
      · rw [runAttempts_succ_retry service i f e2 hs hi] at h
        exact ih (i + 1) e h
      · rw [runAttempts_succ_last_failure service i f e2 hs hi] at h
        simp at h

theorem runAttempts_not_postLoop (service : Nat → TransportResult) :
    ∀ fuel i, i + fuel = max_retries → 0 < fuel →
    (runAttempts service i fuel).fromPostLoop = false := by
  intro fuel
  induction fuel with
  | zero => intro i _ h; exact absurd h (by omega)
  | succ f ih =>
    intro i hsum _
    have hm : max_retries = 5 := rfl
    cases hs : service i with
    | success body =>
      rw [runAttempts_succ_success service i f body hs]
      exact handleSuccess_fromPostLoop body
    | failure e =>
      by_cases hi : i < max_retries - 1
      · rw [runAttempts_succ_retry service i f e hs hi]
        show (runAttempts service (i + 1) f).fromPostLoop = false
        exact ih (i + 1) (by rw [hm] at hsum ⊢; omega)
          (by rw [hm] at hsum hi; omega)
      · rw [runAttempts_succ_last_failure service i f e hs hi]

/-! ## Helper lemmas about splitting and the response shape -/

theorem splitOn_no_comma : ∀ (l : List Char), ',' ∉ l → l.splitOn ',' = [l] := by
  intro l
  induction l with
  | nil => intro _; rfl
  | cons a l ih =>
    intro h
    have ha : (a == ',') = false := by
      simp only [beq_eq_false_iff_ne]
      intro hEq
      exact h (hEq ▸ List.mem_cons_self a l)
    have hl : ',' ∉ l := fun hm => h (List.mem_cons_of_mem a hm)
    have ihp : l.splitOnP (fun b => b == ',') = [l] := ih hl
    show (a :: l).splitOnP (fun b => b == ',') = [a :: l]
    rw [List.splitOnP_cons, ha, if_neg (by simp), ihp]
    rfl

theorem length_modifyHead_eq (f : List Char → List Char) (xs : List (List Char)) :
    (xs.modifyHead f).length = xs.length := by
  cases xs <;> rfl

theorem two_le_length_splitOn : ∀ (l : List Char), ',' ∈ l → 2 ≤ (l.splitOn ',').length := by
  intro l
  induction l with
  | nil => intro h; simp at h
  | cons a l ih =>
    intro h
    show 2 ≤ ((a :: l).splitOnP (fun b => b == ',')).length
    rw [List.splitOnP_cons]
    by_cases ha : a = ','
    · rw [if_pos (by simp [ha])]
      have hne := List.splitOnP_ne_nil (fun b => b == ',') l
      have hlen : 1 ≤ (l.splitOnP (fun b => b == ',')).length :=
        List.length_pos.mpr hne
      simp only [List.length_cons]
      omega
    · rw [if_neg (by simp [ha])]
      have hmem : ',' ∈ l := by
        cases h with
        | head => exact absurd rfl ha
        | tail _ hm => exact hm
      have hrec : 2 ≤ (l.splitOnP (fun b => b == ',')).length := ih hmem
      rw [length_modifyHead_eq]
      exact hrec

theorem pySplitComma_no_comma (s : String) (h : ',' ∉ s.data) : pySplitComma s = [s] := by
  unfold pySplitComma
  rw [splitOn_no_comma s.data h]
  rfl

theorem processBody_candidates_absent (fs : List (String × Json))
    (h : List.lookup "candidates" fs = none) :
    processBody (.obj fs) = .ok (.str noResponseMsg) := by
  simp [processBody, pyContains, h]

theorem processBody_candidates_empty (fs : List (String × Json))
    (h : List.lookup "candidates" fs = some (Json.arr [])) :
    processBody (.obj fs) = .ok (.str noResponseMsg) := by
  simp [processBody, pyContains, pyGetKey, pyLen, h]

/-! ## The claims -/

/-- C1: for every payload, if every one of the 5 attempts of
`call_gemini_api` fails at the transport level, the wrapper makes exactly
5 attempts and then returns the fixed connectivity-failure fallback string,
without raising an exception. -/
theorem C1_always_failing_transport_five_attempts_then_connectivity_fallback
    {P : Type} (service : P → Nat → TransportResult) (payload : P)
    (hfail : ∀ i, i < 5 → (service payload i).isFailure = true) :
    (call_gemini_api service payload).result = .ok (.str connectivityMsg) ∧
    (call_gemini_api service payload).attempts = 5 := by
  have h := runAttempts_all_fail (service payload) 5 0 rfl (by omega)
    (fun j hj => by simpa using hfail j hj)
  have hcall : call_gemini_api service payload =
      ⟨.ok (.str connectivityMsg), 5,
       (List.range 4).map (fun j => 2 ^ (0 + j)), false⟩ := h
  rw [hcall]
  exact ⟨rfl, rfl⟩

/-- C1 witness: a service failing every attempt with a connection error. -/
theorem C1_witness_constant_failure :
    (call_gemini_api alwaysFailService (textPayloadOf "What is the weather?")).result
      = .ok (.str connectivityMsg) ∧
    (call_gemini_api alwaysFailService (textPayloadOf "What is the weather?")).attempts = 5 :=
  C1_always_failing_transport_five_attempts_then_connectivity_fallback
    alwaysFailService _ (fun _ _ => rfl)

/-- C2 counterexample: the claim says `call_gemini_api` returns a string and
never propagates an exception for any JSON response body, including nested
values of unexpected type; but for the body `{"candidates": [5]}` the
subscript `[0]['content']` on the number 5 raises a `TypeError`, which
neither `except` arm catches, so the exception escapes the wrapper. -/
theorem C2_counterexample_typeError_escapes :
    (call_gemini_api typeConfusedService (textPayloadOf "hello")).result
      = .error .typeError := rfl

/-- C2 amended: for every payload and service behaviour, `call_gemini_api`
either returns a value, or propagates an exception which can only be a
`TypeError` from a nested response value of unexpected type; transport
failures, `KeyError` and `IndexError` never escape. -/
theorem C2_amended_only_typeError_can_escape
    {P : Type} (service : P → Nat → TransportResult) (payload : P) :
    (∃ v, (call_gemini_api service payload).result = .ok v) ∨
    (call_gemini_api service payload).result = .error .typeError := by
  cases hr : (call_gemini_api service payload).result with
  | ok v => exact Or.inl ⟨v, rfl⟩
  | error e =>
    have he : e = .typeError :=
      runAttempts_error_typeError (service payload) max_retries 0 e hr
    exact Or.inr (by rw [he])

/-- C3 counterexample: the claim says the inline image data equals the
portion of `imageData` after the first comma; for `imageData = "a,b,c"`
that portion is `"b,c"`, but the code's `split(',')[1]` embeds `"b"`. -/
theorem C3_counterexample_second_field_not_tail :
    imagePayloadOf "m" "a,b,c" =
      .ok ⟨[⟨[.text imageInstructionText, .inlineData "image/jpeg" "b", .text "m"]⟩],
           [], none, ⟨0.2⟩⟩ ∧
    spec_afterFirstComma "a,b,c" = "b,c" ∧ ("b" : String) ≠ "b,c" :=
  ⟨rfl, rfl, by decide⟩

/-- C3 amended: for every request with `imageData` containing at least one
comma, the outbound payload has exactly three content parts in the fixed
order (instruction, inline image with MIME type image/jpeg, user message),
temperature 0.2, and the inline image data equals the SECOND
comma-separated field of `imageData` (the element at index 1 of the full
comma split) — which is the portion after the first comma only when
`imageData` contains exactly one comma. -/
theorem C3_amended_image_payload_shape
    (user_message image_data : String) (h : ',' ∈ image_data.data) :
    ∃ d, (pySplitComma image_data).get? 1 = some d ∧
      imagePayloadOf user_message image_data =
        .ok ⟨[⟨[.text imageInstructionText, .inlineData "image/jpeg" d,
                .text user_message]⟩], [], none, ⟨0.2⟩⟩ := by
  have hlen : 2 ≤ (pySplitComma image_data).length := by
    unfold pySplitComma
    rw [List.length_map]
    exact two_le_length_splitOn image_data.data h
  cases hg : (pySplitComma image_data).get? 1 with
  | none =>
    have := List.get?_eq_none.mp hg
    omega
  | some d =>
    refine ⟨d, rfl, ?_⟩
    unfold imagePayloadOf pyListGet
    rw [hg]

/-- C3 witness: a data URL with a single comma. -/
theorem C3_witness_single_comma_data_url :
    ∃ d, (pySplitComma "data:image/jpeg;base64,AAAA").get? 1 = some d ∧
      imagePayloadOf "diagnose" "data:image/jpeg;base64,AAAA" =
        .ok ⟨[⟨[.text imageInstructionText, .inlineData "image/jpeg" d,
                .text "diagnose"]⟩], [], none, ⟨0.2⟩⟩ :=
  C3_amended_image_payload_shape "diagnose" "data:image/jpeg;base64,AAAA" (by decide)

/-- C4 counterexample: the claim says a present `imageData` is routed to the
image handler; but `imageData = ""` is present yet falsy, so `chat` takes
the text branch: with a service that reports which payload it received,
the empty-string request is answered exactly like the absent one
(`"text-route"`), while a non-empty `imageData` yields `"image-route"`. -/
theorem C4_counterexample_present_empty_imageData_routes_to_text :
    (some "" : Option String).isSome = true ∧
    chat routeProbeService "hello" (some "") =
      ⟨200, .obj [("response", .str "text-route")]⟩ ∧
    chat routeProbeService "hello" none =
      ⟨200, .obj [("response", .str "text-route")]⟩ ∧
    chat routeProbeService "hello" (some "x,AAAA") =
      ⟨200, .obj [("response", .str "image-route")]⟩ :=
  ⟨rfl, rfl, rfl, rfl⟩

/-- C4 amended: `chat` routes to the image handler exactly when `imageData`
is present AND non-empty; an absent `imageData` and the present-but-empty
string both go to the text-only handler. -/
theorem C4_amended_truthy_routing (service : Payload → Nat → TransportResult)
    (user_message s : String) (hne : s ≠ "") :
    chat service user_message (some s) =
      wrapOutcome (handle_image_query service user_message s) ∧
    chat service user_message none =
      wrapOutcome (handle_text_query service user_message) ∧
    chat service user_message (some "") =
      wrapOutcome (handle_text_query service user_message) := by
  have he : s.isEmpty = false := by
    cases hb : s.isEmpty
    · rfl
    · exact absurd ((String.isEmpty_iff s).mp hb) hne
  refine ⟨?_, rfl, rfl⟩
  simp [chat, pyTruthy, he]

/-- C4 witness: routing at the concrete non-empty `imageData` `"x"`. -/
theorem C4_witness_routing :
    chat alwaysFailService "m" (some "x") =
      wrapOutcome (handle_image_query alwaysFailService "m" "x") ∧
    chat alwaysFailService "m" none =
      wrapOutcome (handle_text_query alwaysFailService "m") ∧
    chat alwaysFailService "m" (some "") =
      wrapOutcome (handle_text_query alwaysFailService "m") :=
  C4_amended_truthy_routing alwaysFailService "m" "x" (by decide)

/-- C5: for every payload, if transport attempts 1-4 fail and attempt 5
succeeds with a well-formed candidates response carrying text `t`, the
wrapper returns `t` and the sleeps between consecutive attempts are
1, 2, 4, 8 in that order, with no sleep after the 5th attempt. -/
theorem C5_four_failures_then_success_backoff
    {P : Type} (service : P → Nat → TransportResult) (payload : P)
    (body : Json) (t : String)
    (hfail : ∀ i, i < 4 → (service payload i).isFailure = true)
    (hsucc : service payload 4 = .success body)
    (hext : processBody body = .ok (.str t)) :
    (call_gemini_api service payload).result = .ok (.str t) ∧
    (call_gemini_api service payload).sleeps = [1, 2, 4, 8] ∧
    (call_gemini_api service payload).attempts = 5 := by
  have h := runAttempts_first_success (service payload) 4 5 0 body rfl (by omega)
    (fun j hj => by simpa using hfail j hj) (by simpa using hsucc)
  have hcall : call_gemini_api service payload =
      ⟨(handleSuccess body).result, 5, (List.range 4).map (fun j => 2 ^ (0 + j)), false⟩ := h
  rw [hcall]
  refine ⟨?_, by rfl, rfl⟩
  show (handleSuccess body).result = .ok (.str t)
  unfold handleSuccess
  rw [hext]

/-- C5 witness: a service timing out on attempts 1-4 and answering on the
5th. -/
theorem C5_witness_late_success :
    (call_gemini_api lateSuccessService (textPayloadOf "hi")).result
      = .ok (.str "final answer") ∧
    (call_gemini_api lateSuccessService (textPayloadOf "hi")).sleeps = [1, 2, 4, 8] ∧
    (call_gemini_api lateSuccessService (textPayloadOf "hi")).attempts = 5 :=
  C5_four_failures_then_success_backoff lateSuccessService _
    (goodBody "final answer") "final answer"
    (fun i hi => by simp [lateSuccessService, hi, TransportResult.isFailure]) rfl rfl

/-- C6: for every payload, if an attempt of `call_gemini_api` succeeds at
the transport level but extracting the first candidate's first text part
raises a missing-key or missing-index error, the wrapper returns the fixed
processing-error fallback string immediately, without further attempts. -/
theorem C6_parse_error_immediate_processing_fallback
    {P : Type} (service : P → Nat → TransportResult) (payload : P)
    (k : Nat) (body : Json) (e : PyExc)
    (hk : k < 5)
    (hfail : ∀ i, i < k → (service payload i).isFailure = true)
    (hsucc : service payload k = .success body)
    (herr : processBody body = .error e)
    (hke : e = .keyError ∨ e = .indexError) :
    (call_gemini_api service payload).result = .ok (.str processingMsg) ∧
    (call_gemini_api service payload).attempts = k + 1 := by
  have h := runAttempts_first_success (service payload) k 5 0 body rfl (by omega)
    (fun j hj => by simpa using hfail j hj) (by simpa using hsucc)
  have hcall : call_gemini_api service payload =
      ⟨(handleSuccess body).result, k + 1, (List.range k).map (fun j => 2 ^ (0 + j)), false⟩ := h
  rw [hcall]
  refine ⟨?_, rfl⟩
  show (handleSuccess body).result = .ok (.str processingMsg)
  unfold handleSuccess
  rw [herr]
  cases hke with
  | inl h1 => rw [h1]
  | inr h1 => rw [h1]

/-- C6 witness: a first-attempt 200 whose only candidate has no
`"content"` key. -/
theorem C6_witness_missing_content_key :
    (call_gemini_api keyErrorService (textPayloadOf "hi")).result
      = .ok (.str processingMsg) ∧
    (call_gemini_api keyErrorService (textPayloadOf "hi")).attempts = 0 + 1 :=
  C6_parse_error_immediate_processing_fallback keyErrorService _ 0
    (.obj [("candidates", .arr [.obj []])])
    .keyError (by omega) (fun i hi => absurd hi (by omega)) rfl rfl (Or.inl rfl)

/-- C7: for every payload, if an attempt of `call_gemini_api` succeeds at
the transport level and the response body has an empty or absent candidates
list, the wrapper returns the fixed no-response fallback string
immediately, without further attempts. -/
theorem C7_empty_or_absent_candidates_immediate_fallback
    {P : Type} (service : P → Nat → TransportResult) (payload : P)
    (k : Nat) (fs : List (String × Json))
    (hk : k < 5)
    (hfail : ∀ i, i < k → (service payload i).isFailure = true)
    (hsucc : service payload k = .success (.obj fs))
    (hcand : List.lookup "candidates" fs = none ∨
             List.lookup "candidates" fs = some (Json.arr [])) :
    (call_gemini_api service payload).result = .ok (.str noResponseMsg) ∧
    (call_gemini_api service payload).attempts = k + 1 := by
  have h := runAttempts_first_success (service payload) k 5 0 (.obj fs) rfl (by omega)
    (fun j hj => by simpa using hfail j hj) (by simpa using hsucc)
  have hcall : call_gemini_api service payload =
      ⟨(handleSuccess (.obj fs)).result, k + 1,
       (List.range k).map (fun j => 2 ^ (0 + j)), false⟩ := h
  rw [hcall]
  refine ⟨?_, rfl⟩
  have hpb : processBody (.obj fs) = .ok (.str noResponseMsg) := by
    cases hcand with
    | inl h1 => exact processBody_candidates_absent fs h1
    | inr h1 => exact processBody_candidates_empty fs h1
  show (handleSuccess (.obj fs)).result = .ok (.str noResponseMsg)
  unfold handleSuccess
  rw [hpb]

/-- C7 witness: a first-attempt 200 with `{"candidates": []}`. -/
theorem C7_witness_empty_candidates :
    (call_gemini_api emptyCandidatesService (textPayloadOf "hi")).result
      = .ok (.str noResponseMsg) ∧
    (call_gemini_api emptyCandidatesService (textPayloadOf "hi")).attempts = 0 + 1 :=
  C7_empty_or_absent_candidates_immediate_fallback emptyCandidatesService _ 0
    [("candidates", .arr [])]
    (by omega) (fun i hi => absurd hi (by omega)) rfl (Or.inr rfl)

/-- C8: for every text-only request, the outbound payload built by
`handle_text_query` has exactly one content part whose text equals the
input message, the Google Search grounding tool enabled, the fixed
farmer-assistant system instruction attached, and temperature 0.7. -/
theorem C8_text_payload_shape (user_message : String) :
    (textPayloadOf user_message).contents = [⟨[.text user_message]⟩] ∧
    (textPayloadOf user_message).tools = [.googleSearch] ∧
    (textPayloadOf user_message).systemInstruction = some ⟨[.text personaText]⟩ ∧
    (textPayloadOf user_message).generationConfig.temperature = 0.7 :=
  ⟨rfl, rfl, rfl, rfl⟩

/-- C9: for every request whose `imageData` is present, non-empty and
contains no comma, the prefix strip raises `IndexError` and the request is
answered with the generic 500 JSON error response, not a 200 apology. -/
theorem C9_no_comma_imageData_generic_500
    (service : Payload → Nat → TransportResult)
    (user_message s : String) (hne : s ≠ "") (hnc : ',' ∉ s.data) :
    chat service user_message (some s) =
      ⟨500, .obj [("response", .str genericErrorMsg)]⟩ := by
  have he : s.isEmpty = false := by
    cases hb : s.isEmpty
    · rfl
    · exact absurd ((String.isEmpty_iff s).mp hb) hne
  have hsplit : pySplitComma s = [s] := pySplitComma_no_comma s hnc
  simp [chat, pyTruthy, he, handle_image_query, imagePayloadOf, hsplit, pyListGet,
    wrapOutcome]

/-- C9 witness: bare base64 with no data-URL prefix. -/
theorem C9_witness_no_comma :
    chat alwaysFailService "diagnose" (some "AAAA") =
      ⟨500, .obj [("response", .str genericErrorMsg)]⟩ :=
  C9_no_comma_imageData_generic_500 alwaysFailService "diagnose" "AAAA"
    (by decide) (by decide)

/-- C10 counterexample: the claim says the post-loop fallback string is
never the function's result; but when the service's first attempt succeeds
with a candidate whose text happens to equal that very string, the wrapper
returns it verbatim from the extraction path (in 1 attempt). -/
theorem C10_counterexample_echoed_sentinel_is_result :
    (call_gemini_api echoService (textPayloadOf "hi")).result
      = .ok (.str unavailableMsg) ∧
    (call_gemini_api echoService (textPayloadOf "hi")).attempts = 1 :=
  ⟨rfl, rfl⟩

/-- C10 amended: every terminating execution of `call_gemini_api` returns
from within the retry loop; the return statement after the loop is never
executed (though the same sentinel text can still be returned when the
service itself generates it). -/
theorem C10_amended_post_loop_return_unreachable
    {P : Type} (service : P → Nat → TransportResult) (payload : P) :
    (call_gemini_api service payload).fromPostLoop = false :=
  runAttempts_not_postLoop (service payload) max_retries 0 rfl (by decide)

end AgriBot
